import Mathlib

/-!
Verification of the molt-logger batching log transport
(`src/mongo-transport.js`, `src/request-logger.js`, the package entry
with `wrapForNest`, and the example app).

The JavaScript source is shallowly embedded: JSON values become the
inductive `JVal`, the record mapper `pinoToDoc` becomes a pure Lean
function with the ambient clock passed explicitly, and the stateful
batching transport becomes explicit state passing over `TState`
together with a step relation `Step` for the asynchronous events
(chunk written, timer fired, insertMany settled, stream finalised,
client close settled).
-/

/-- A JSON value, as produced by the JavaScript runtime for a parsed
log line. Numbers are modelled as integers (pino levels and epoch
timestamps are integral). -/
inductive JVal where
  | null : JVal
  | bool (b : Bool) : JVal
  | num (n : Int) : JVal
  | str (s : String) : JVal
  | arr (elems : List JVal) : JVal
  | obj (fields : List (String × JVal)) : JVal

/-- A parsed JSON object: ordered key/value pairs (keys unique, as
produced by JSON.parse). -/
def RawObj : Type := List (String × JVal)

/-- JavaScript loose nullish test `x == null`: true exactly for a
missing property (undefined) and for null. -/
def isNullish : Option JVal → Bool
  | none => true
  | some JVal.null => true
  | some _ => false

mutual

/-- The JavaScript ToString coercion `String(v)` (also used by property
key lookup `LEVEL_MAP[level]`), restricted to JSON values: numbers
print in decimal, arrays join their elements with commas (null elements
print as empty), objects stringify as the generic object tag. -/
def jsString : JVal → String
  | JVal.null => "null"
  | JVal.bool b => if b then "true" else "false"
  | JVal.num n => toString n
  | JVal.str s => s
  | JVal.arr elems => String.intercalate "," (jsStringList elems)
  | JVal.obj _ => "[object Object]"

/-- Element-wise stringification used by Array.prototype.toString:
null elements render as the empty string. -/
def jsStringList : List JVal → List String
  | [] => []
  | JVal.null :: vs => "" :: jsStringList vs
  | v :: vs => jsString v :: jsStringList vs

end

/-- The LEVEL_MAP object from mongo-transport.js, seen through the
JavaScript property lookup `LEVEL_MAP[level]` (the key is the ToString
coercion of the level value). -/
def LEVEL_MAP (key : String) : Option String :=
  if key = "10" then some "trace"
  else if key = "20" then some "debug"
  else if key = "30" then some "info"
  else if key = "40" then some "warn"
  else if key = "50" then some "error"
  else if key = "60" then some "fatal"
  else none

/-- A JavaScript Date as built by pinoToDoc: either `new Date(time)`
from a record field, or `new Date()` reading the ambient clock (the
clock instant is the `Int` parameter threaded through the embedding). -/
inductive DateV where
  | fromVal (v : JVal) : DateV
  | now (clock : Int) : DateV

/-- The keys removed from the record by the destructuring pattern in
pinoToDoc; everything else lands in the rest object. -/
def destructuredKeys : List String :=
  ["level", "msg", "time", "reqId", "userId", "endpoint", "request", "response"]

/-- The document pinoToDoc builds for the sink. Fields mirror the
object literal in the source: seven unconditional fields (including the
constants source, storage, storageTags) and six conditional ones. -/
structure Doc where
  level : String
  message : JVal
  service : String
  source : String
  storage : String
  storageTags : List String
  timestamp : DateV
  reqId : Option String
  userId : Option String
  endpoint : Option String
  request : Option JVal
  response : Option JVal
  meta : Option (List (String × JVal))

/-- The conditional fields `request`/`response` are attached only when
the value is non-null and `typeof v === "object"` (JSON objects and
arrays). -/
def objectLike : Option JVal → Option JVal
  | some (JVal.obj fields) => some (JVal.obj fields)
  | some (JVal.arr elems) => some (JVal.arr elems)
  | _ => none

/-- String coercion of an optional field guarded by `v != null`
(reqId, userId, endpoint in the source). -/
def stringField : Option JVal → Option String
  | none => none
  | some JVal.null => none
  | some v => some (jsString v)

/-- The record mapper pinoToDoc from mongo-transport.js, on an already
parsed object. `clock` is the ambient current time read by `new Date()`
when the record carries no `time` field. -/
def pinoToDoc (o : RawObj) (service : String) (clock : Int) : Doc :=
  let rest : List (String × JVal) :=
    o.filter (fun kv => !(destructuredKeys.contains kv.1))
  { level :=
      match List.lookup "level" o with
      | none => "info"
      | some v => (LEVEL_MAP (jsString v)).getD "info"
    message :=
      match List.lookup "msg" o with
      | none => JVal.str ""
      | some JVal.null => JVal.str ""
      | some v => v
    service := service
    source := "logger-client-node"
    storage := "mongodb"
    storageTags := ["mongodb"]
    timestamp :=
      match List.lookup "time" o with
      | none => DateV.now clock
      | some JVal.null => DateV.now clock
      | some v => DateV.fromVal v
    reqId := stringField (List.lookup "reqId" o)
    userId := stringField (List.lookup "userId" o)
    endpoint := stringField (List.lookup "endpoint" o)
    request := objectLike (List.lookup "request" o)
    response := objectLike (List.lookup "response" o)
    meta := if rest.length > 0 then some rest else none }

/-- The six severity names of the storage schema. -/
def sixLevels : List String := ["trace", "debug", "info", "warn", "error", "fatal"]

/-- The keys of the documented storage document schema. -/
def schemaKeys : List String :=
  ["level", "message", "service", "timestamp",
   "reqId", "userId", "endpoint", "request", "response", "meta"]

/-- Constant fields the source attaches beyond the documented schema. -/
def extraKeys : List String := ["source", "storage", "storageTags"]

/-- Key contributed by an optional document field (present iff the
field is set, mirroring the conditional assignments in the source). -/
def optKey {α : Type} (k : String) : Option α → List String
  | some _ => [k]
  | none => []

/-- The set of property names present on a document built by
pinoToDoc, in the insertion order of the source. -/
def docKeys (d : Doc) : List String :=
  ["level", "message", "service", "source", "storage", "storageTags", "timestamp"]
    ++ optKey "reqId" d.reqId ++ optKey "userId" d.userId
    ++ optKey "endpoint" d.endpoint ++ optKey "request" d.request
    ++ optKey "response" d.response ++ optKey "meta" d.meta

/-- The JavaScript `parseInt(s, 10)` builtin as used for the env
overrides: skip leading whitespace, optional sign, then the longest
digit run; no digits give NaN, modelled as `none`. -/
def leadDigits : List Char → Option Nat → Option Nat
  | [], acc => acc
  | c :: cs, acc =>
      if c.isDigit then leadDigits cs (some ((acc.getD 0) * 10 + (c.toNat - 48)))
      else acc

/-- Parse a decimal integer the way `parseInt(s, 10)` does. -/
def parseIntJs (s : String) : Option Int :=
  match s.data.dropWhile Char.isWhitespace with
  | c :: cs =>
      if c = Char.ofNat 45 then (leadDigits cs none).map (fun n => -(n : Int))
      else if c = Char.ofNat 43 then (leadDigits cs none).map (fun n => (n : Int))
      else (leadDigits (c :: cs) none).map (fun n => (n : Int))
  | [] => none

/-- JavaScript `x || d` on the result of parseInt: NaN (none) and 0 are
falsy and yield the default. -/
def jsOrDefault (v : Option Int) (d : Int) : Int :=
  match v with
  | none => d
  | some x => if x = 0 then d else x

/-- The module constant BATCH_SIZE: `parseInt(process.env.LOG_BATCH_SIZE, 10) || 50`
(an absent env var parses to NaN). -/
def BATCH_SIZE (env : Option String) : Int :=
  jsOrDefault (env.bind parseIntJs) 50

/-- The module constant FLUSH_MS: `parseInt(process.env.LOG_FLUSH_MS, 10) || 2000`. -/
def FLUSH_MS (env : Option String) : Int :=
  jsOrDefault (env.bind parseIntJs) 2000

/-- The batchSize actually used by the transport. The destructuring
default `batchSize = BATCH_SIZE` applies only when the option is
undefined (`none`); any explicitly passed number is used verbatim. -/
def resolvedBatchSize (optsBatchSize : Option Int) (env : Option String) : Int :=
  match optsBatchSize with
  | some v => v
  | none => BATCH_SIZE env

/-- The flushMs actually used by the transport, resolved like
`resolvedBatchSize`. -/
def resolvedFlushMs (optsFlushMs : Option Int) (env : Option String) : Int :=
  match optsFlushMs with
  | some v => v
  | none => FLUSH_MS env

/-- JavaScript `a || b` on string-or-undefined values: undefined and
the empty string are falsy. -/
def jsOrStr (a b : Option String) : Option String :=
  match a with
  | none => b
  | some s => if s = "" then b else some s

/-- The uri resolved by buildTransport:
`uri = opts.uri` with destructuring default
`process.env.LOG_MONGODB_URI || process.env.MONGODB_URI`. -/
def resolveUri (optsUri envLogUri envMongoUri : Option String) : Option String :=
  match optsUri with
  | some u => some u
  | none => jsOrStr envLogUri envMongoUri

/-- The error message thrown by buildTransport when no uri resolves. -/
def uriErrorMsg : String :=
  "MongoDB URI for logs required: set LOG_MONGODB_URI (or MONGODB_URI) in environment"

/-- The configuration the transport closes over once construction
succeeds (uri for the MongoClient, service name, thresholds). -/
structure TransportConfig where
  uri : String
  service : String
  batchSize : Int
  flushMs : Int

/-- The configuration phase of buildTransport in mongo-transport.js: it
resolves the options against the environment and throws (`Except.error`)
when `!uri`, i.e. before any MongoClient is constructed or connected —
a client exists only inside the `Except.ok` value. -/
def buildTransport (optsUri : Option String) (optsBatchSize optsFlushMs : Option Int)
    (envLogUri envMongoUri envBatch envFlush : Option String) (service : String) :
    Except String TransportConfig :=
  match resolveUri optsUri envLogUri envMongoUri with
  | none => Except.error uriErrorMsg
  | some u =>
      if u = "" then Except.error uriErrorMsg
      else Except.ok
        { uri := u
          service := service
          batchSize := resolvedBatchSize optsBatchSize envBatch
          flushMs := resolvedFlushMs optsFlushMs envFlush }

/-- A JavaScript Error as seen by the insertMany catch handler. -/
structure JsError where
  message : String
  stack : Option String

/-- String coercion of an Error object (used when `err.stack` is falsy
in the template literal). -/
def jsErrorString (e : JsError) : String :=
  "Error: " ++ e.message

/-- The first stderr line written by the insertMany catch handler. -/
def errLine1 (e : JsError) : String :=
  "[logger-client-node] MongoDB insertMany failed: " ++ e.message ++ "\n"

/-- The second stderr line written by the insertMany catch handler
(`err.stack || err` inside the template literal). -/
def errLine2 (e : JsError) : String :=
  "[logger-client-node] Check LOG_MONGODB_URI and network. Full error: "
    ++ (match e.stack with
        | some st => if st = "" then jsErrorString e else st
        | none => jsErrorString e)
    ++ "\n"

/-- The mutable state closed over by the transport in
mongo-transport.js, together with the observables of its asynchronous
environment: `buffer` and `flushTimer` are the two closure variables
(`flushTimer` stays truthy after `final` clears the timer, because
`final` never nulls it); `activeTimers` counts setTimeout callbacks
scheduled but neither fired nor cleared; `pending` holds the insertMany
batches in flight in initiation order; `stderrOut` the diagnostics
written so far; `closeStarted` whether `client.close()` was initiated;
`finalCbDone` whether the stream-final callback (the drain completion)
has run. -/
structure TState where
  buffer : List Doc
  flushTimer : Bool
  activeTimers : Nat
  pending : List (List Doc)
  stderrOut : List String
  closeStarted : Bool
  finalCbDone : Bool

/-- The flush function: no-op on an empty buffer, otherwise splice out
the whole buffer and hand the snapshot to `col.insertMany` (a new
in-flight write). -/
def flush (s : TState) : TState :=
  if s.buffer.length = 0 then s
  else { s with buffer := [], pending := s.pending ++ [s.buffer] }

/-- The scheduleFlush function: a no-op while a timer is pending,
otherwise it sets a single setTimeout for flushMs. -/
def scheduleFlush (s : TState) : TState :=
  if s.flushTimer then s
  else { s with flushTimer := true, activeTimers := s.activeTimers + 1 }

/-- The setTimeout callback: nulls flushTimer, then flushes. -/
def timerFire (s : TState) : TState :=
  flush { s with flushTimer := false, activeTimers := s.activeTimers - 1 }

/-- The write handler of the Writable, after the chunk has been split
into lines: each line is parsed (`parse` models JSON.parse: `none` is a
throw, caught per line by the try/catch) and the surviving documents
are pushed; then the threshold check runs once — flush and cancel the
timer when the buffer reached batchSize, otherwise schedule the timer. -/
def writeChunkLines (parse : String → Option RawObj) (cfg : TransportConfig)
    (clock : Int) (lines : List String) (s : TState) : TState :=
  let docs := lines.filterMap (fun l => (parse l).map (fun o => pinoToDoc o cfg.service clock))
  let mid : TState := { s with buffer := s.buffer ++ docs }
  if cfg.batchSize ≤ (mid.buffer.length : Int) then
    let s2 := flush mid
    if s2.flushTimer then { s2 with flushTimer := false, activeTimers := s2.activeTimers - 1 }
    else s2
  else scheduleFlush mid

/-- Chunk splitting from the write handler:
`chunk.toString().split("\n").filter((s) => s.trim())`. -/
def linesOf (chunk : String) : List String :=
  (chunk.splitOn "\n").filter (fun l => l.trim ≠ "")

/-- The full write handler on a raw chunk. -/
def writeChunk (parse : String → Option RawObj) (cfg : TransportConfig)
    (clock : Int) (chunk : String) (s : TState) : TState :=
  writeChunkLines parse cfg clock (linesOf chunk) s

/-- An in-flight insertMany resolves: the promise is dropped, nothing
else happens. -/
def settleOk (i : Nat) (s : TState) : TState :=
  { s with pending := s.pending.eraseIdx i }

/-- An in-flight insertMany rejects: the catch handler writes the two
diagnostic lines; the batch is dropped, never retried or re-buffered. -/
def settleFail (i : Nat) (e : JsError) (s : TState) : TState :=
  { s with pending := s.pending.eraseIdx i
           stderrOut := s.stderrOut ++ [errLine1 e, errLine2 e] }

/-- The final handler of the Writable (the drain path): clear a
pending timer (without nulling the flushTimer variable), flush, then
initiate `client.close()`; the stream callback is invoked when the
close promise settles, not when the insertMany promises settle. -/
def finalStart (s : TState) : TState :=
  let s1 := if s.flushTimer then { s with activeTimers := s.activeTimers - 1 } else s
  let s2 := flush s1
  { s2 with closeStarted := true }

/-- The `client.close()` promise settles and runs the final callback. -/
def closeSettle (s : TState) : TState :=
  { s with finalCbDone := true }

/-- The asynchronous events the transport's environment can deliver:
a chunk write, the timer firing, an in-flight insertMany settling
(either way), the stream being finalised, and the close promise
settling. The close settlement is not sequenced after the pending
insertMany promises because the source never retains those promises. -/
inductive Step (parse : String → Option RawObj) (cfg : TransportConfig) :
    TState → TState → Prop where
  | writeStep (clock : Int) (lines : List String) (s : TState) :
      Step parse cfg s (writeChunkLines parse cfg clock lines s)
  | fireStep (s : TState) : 0 < s.activeTimers → Step parse cfg s (timerFire s)
  | settleOkStep (i : Nat) (s : TState) :
      i < s.pending.length → Step parse cfg s (settleOk i s)
  | settleFailStep (i : Nat) (e : JsError) (s : TState) :
      i < s.pending.length → Step parse cfg s (settleFail i e s)
  | finalStep (s : TState) : Step parse cfg s (finalStart s)
  | closeStep (s : TState) : s.closeStarted = true → Step parse cfg s (closeSettle s)

/-- Timer ownership invariant: never more than one live setTimeout,
and none at all once the flushTimer variable is null. -/
def TimerInv (s : TState) : Prop :=
  s.activeTimers ≤ 1 ∧ (s.flushTimer = false → s.activeTimers = 0)

/-- The idle state of a freshly built transport. -/
def initState : TState :=
  { buffer := [], flushTimer := false, activeTimers := 0,
    pending := [], stderrOut := [], closeStarted := false, finalCbDone := false }

/-- A Pino-style logger value, abstracted over the type of method
arguments `A`, the effect of a call `E`, and child bindings `B`. The
NestJS wrapper only inspects the presence of `log`/`verbose` (truthy
on the JS object iff present) and delegates `info`, `debug` and
`child`; those are the only members modelled. -/
inductive Logger (A E B : Type) : Type where
  | mk (info : A → E) (debug : A → E)
      (log : Option (A → E)) (verbose : Option (A → E))
      (child : B → Logger A E B) : Logger A E B

/-- The info method of a logger. -/
def Logger.infoFn {A E B : Type} : Logger A E B → (A → E)
  | Logger.mk i _ _ _ _ => i

/-- The debug method of a logger. -/
def Logger.debugFn {A E B : Type} : Logger A E B → (A → E)
  | Logger.mk _ d _ _ _ => d

/-- The log method of a logger, when present. -/
def Logger.logFn {A E B : Type} : Logger A E B → Option (A → E)
  | Logger.mk _ _ lg _ _ => lg

/-- The verbose method of a logger, when present. -/
def Logger.verboseFn {A E B : Type} : Logger A E B → Option (A → E)
  | Logger.mk _ _ _ vb _ => vb

/-- The child method of a logger. -/
def Logger.childFn {A E B : Type} : Logger A E B → (B → Logger A E B)
  | Logger.mk _ _ _ _ ch => ch

/-- Truthiness of `logger.log` on the JS object. -/
def Logger.hasLog {A E B : Type} (l : Logger A E B) : Bool :=
  l.logFn.isSome

/-- Truthiness of `logger.verbose` on the JS object. -/
def Logger.hasVerbose {A E B : Type} (l : Logger A E B) : Bool :=
  l.verboseFn.isSome

/-- The wrapForNest function from the package entry: return the logger
unchanged when it already has log and verbose; otherwise build a
wrapper whose log delegates to info, whose verbose delegates to debug,
and whose child wraps the original child's result recursively. -/
def wrapForNest {A E B : Type} : Logger A E B → Logger A E B
  | Logger.mk info debug log verb child =>
      if log.isSome && verb.isSome then Logger.mk info debug log verb child
      else Logger.mk info debug (some info) (some debug) (fun b => wrapForNest (child b))

/-- C10: wrapForNest is idempotent: a logger that already exposes both
log and verbose is returned unchanged, hence
wrapForNest (wrapForNest l) = wrapForNest l; and on a freshly wrapped
logger, log is exactly the (inherited) info method and verbose exactly
the (inherited) debug method, so they agree on all arguments. -/
theorem wrapForNest_spec {A E B : Type} (l : Logger A E B) :
    (l.hasLog = true → l.hasVerbose = true → wrapForNest l = l) ∧
    wrapForNest (wrapForNest l) = wrapForNest l ∧
    (¬ (l.hasLog = true ∧ l.hasVerbose = true) →
      (wrapForNest l).logFn = some (wrapForNest l).infoFn ∧
      (wrapForNest l).verboseFn = some (wrapForNest l).debugFn ∧
      (wrapForNest l).infoFn = l.infoFn ∧ (wrapForNest l).debugFn = l.debugFn) := by
  rcases l with ⟨i, d, lg, vb, ch⟩
  refine ⟨?_, ?_, ?_⟩
  · intro h1 h2
    simp only [Logger.hasLog, Logger.hasVerbose, Logger.logFn, Logger.verboseFn] at h1 h2
    simp [wrapForNest, h1, h2]
  · by_cases h : (lg.isSome && vb.isSome) = true
    · simp [wrapForNest, h]
    · simp [wrapForNest, h]
  · intro h
    have h' : (lg.isSome && vb.isSome) = false := by
      simp only [Logger.hasLog, Logger.hasVerbose, Logger.logFn, Logger.verboseFn] at h
      cases hl : lg.isSome <;> cases hv : vb.isSome <;> simp_all
    simp [wrapForNest, h', Logger.logFn, Logger.infoFn, Logger.verboseFn, Logger.debugFn]

/-- A logger with neither log nor verbose (like a plain pino logger). -/
def loggerBare : Logger Nat Nat Empty :=
  Logger.mk (fun n => n) (fun n => n + 1) none none (fun e => e.elim)

/-- A logger already exposing log and verbose. -/
def loggerFull : Logger Nat Nat Empty :=
  Logger.mk (fun n => n) (fun n => n + 1)
    (some (fun n => n * 2)) (some (fun n => n * 3)) (fun e => e.elim)

/-- Witness for C10 at concrete loggers. -/
theorem wrapForNest_spec_witness :
    wrapForNest loggerFull = loggerFull ∧
    (wrapForNest loggerBare).logFn = some (wrapForNest loggerBare).infoFn := by
  refine ⟨(wrapForNest_spec loggerFull).1 rfl rfl, ((wrapForNest_spec loggerBare).2.2 ?_).1⟩
  simp [loggerBare, Logger.hasLog, Logger.logFn]

/-- A write never touches batches already in flight: it can only append
a new one. -/
theorem pending_extends (parse : String → Option RawObj) (cfg : TransportConfig)
    (clock : Int) (lines : List String) (t : TState) :
    ∃ more, (writeChunkLines parse cfg clock lines t).pending = t.pending ++ more := by
  simp only [writeChunkLines, flush, scheduleFlush]
  split_ifs <;>
    first
      | exact ⟨_, rfl⟩
      | (refine ⟨[], ?_⟩; simp)

/-- C3: flush on an empty buffer is a no-op initiating zero writes; on
a non-empty buffer it detaches the whole buffer as one snapshot (in
insertion order) handed to insertMany, leaves the buffer empty and the
rest of the state untouched; and any later write extends the in-flight
list without touching the detached snapshot, so records appended during
the in-flight write start a new buffer. -/
theorem flush_spec (parse : String → Option RawObj) (cfg : TransportConfig)
    (clock : Int) (lines : List String) (s : TState) :
    (s.buffer = [] → flush s = s) ∧
    (s.buffer ≠ [] →
      (flush s).buffer = [] ∧
      (flush s).pending = s.pending ++ [s.buffer] ∧
      (flush s).stderrOut = s.stderrOut ∧
      (flush s).flushTimer = s.flushTimer ∧
      (flush s).activeTimers = s.activeTimers) ∧
    (∃ more, (writeChunkLines parse cfg clock lines (flush s)).pending
        = (flush s).pending ++ more) := by
  refine ⟨?_, ?_, pending_extends parse cfg clock lines (flush s)⟩
  · intro h
    simp [flush, h]
  · intro h
    have hl : ¬ (s.buffer.length = 0) := by simpa using h
    simp [flush, hl]

/-- A concrete mapped document used by the concrete-state theorems. -/
def doc0 : Doc := pinoToDoc [("msg", JVal.str "shutdown")] "svc" 0

/-- A concrete transport configuration. -/
def cfg0 : TransportConfig :=
  { uri := "mongodb://logs", service := "svc", batchSize := 50, flushMs := 2000 }

/-- Witness for C3: flushing the idle transport does nothing, flushing
one buffered record detaches exactly that record as the snapshot. -/
theorem flush_spec_witness :
    flush initState = initState ∧
    (flush { initState with buffer := [doc0] }).pending = [[doc0]] := by
  have h1 := (flush_spec (fun _ => none) cfg0 0 [] initState).1 rfl
  have h2 := ((flush_spec (fun _ => none) cfg0 0 []
    { initState with buffer := [doc0] }).2.1 (by simp)).2.1
  exact ⟨h1, by simpa [initState] using h2⟩

/-- C5 counterexample: a non-positive override does not fall back to
the defaults. An explicit batchSize of 0 (or -7) is used verbatim, and
even the env fallback accepts a negative LOG_BATCH_SIZE, so the
threshold in use is not a positive integer. -/
theorem threshold_fallback_counterexample :
    resolvedBatchSize (some 0) none = 0 ∧
    resolvedBatchSize (some (-7)) none = -7 ∧
    resolvedFlushMs (some 0) none = 0 ∧
    BATCH_SIZE (some "-3") = -3 ∧
    ¬ (0 : Int) > 0 := by
  refine ⟨rfl, rfl, rfl, ?_, by omega⟩
  decide

/-- C5 as amended: an option override, once present, is always used
verbatim (only an absent option falls back); the env fallback yields
the default 50 (batch) / 2000 (flush) exactly when the env value is
non-numeric, absent, or parses to 0, and otherwise uses the parsed env
value even when it is negative. -/
theorem threshold_fallback_spec (v : Int) (env : Option String) (n : Int) :
    resolvedBatchSize (some v) env = v ∧
    resolvedFlushMs (some v) env = v ∧
    (env.bind parseIntJs = none →
      resolvedBatchSize none env = 50 ∧ resolvedFlushMs none env = 2000) ∧
    (env.bind parseIntJs = some 0 →
      resolvedBatchSize none env = 50 ∧ resolvedFlushMs none env = 2000) ∧
    (env.bind parseIntJs = some n → n ≠ 0 →
      resolvedBatchSize none env = n ∧ resolvedFlushMs none env = n) := by
  refine ⟨rfl, rfl, ?_, ?_, ?_⟩
  · intro h
    simp [resolvedBatchSize, resolvedFlushMs, BATCH_SIZE, FLUSH_MS, jsOrDefault, h]
  · intro h
    simp [resolvedBatchSize, resolvedFlushMs, BATCH_SIZE, FLUSH_MS, jsOrDefault, h]
  · intro h hn
    simp [resolvedBatchSize, resolvedFlushMs, BATCH_SIZE, FLUSH_MS, jsOrDefault, h, hn]

/-- Witness for C5 at concrete inputs: a present override of 7 is used,
an unparseable env value falls back to 50/2000, and env value 25 is
used. -/
theorem threshold_fallback_spec_witness :
    resolvedBatchSize (some 7) none = 7 ∧
    resolvedBatchSize none (some "abc") = 50 ∧
    resolvedFlushMs none (some "abc") = 2000 ∧
    resolvedBatchSize none (some "25") = 25 := by
  refine ⟨(threshold_fallback_spec 7 none 0).1,
    ((threshold_fallback_spec 7 (some "abc") 0).2.2.1 (by decide)).1,
    ((threshold_fallback_spec 7 (some "abc") 0).2.2.1 (by decide)).2,
    ((threshold_fallback_spec 7 (some "25") 25).2.2.2.2 (by decide) (by decide)).1⟩

/-- C7: construction fails with the configuration error exactly when no
sink address resolves (no uri option and empty/absent env fallbacks),
and the error is produced by the pure configuration phase, before any
client value exists (a TransportConfig is only built in the ok branch);
when a uri resolves, construction succeeds with that uri. -/
theorem buildTransport_uri_spec (optsUri : Option String)
    (optsBatchSize optsFlushMs : Option Int)
    (envLogUri envMongoUri envBatch envFlush : Option String) (service : String) :
    (resolveUri optsUri envLogUri envMongoUri = none ∨
        resolveUri optsUri envLogUri envMongoUri = some "" →
      buildTransport optsUri optsBatchSize optsFlushMs
        envLogUri envMongoUri envBatch envFlush service = Except.error uriErrorMsg) ∧
    (∀ u, resolveUri optsUri envLogUri envMongoUri = some u → u ≠ "" →
      ∃ cfg, buildTransport optsUri optsBatchSize optsFlushMs
          envLogUri envMongoUri envBatch envFlush service = Except.ok cfg ∧
        cfg.uri = u) := by
  constructor
  · rintro (h | h) <;> simp [buildTransport, h]
  · intro u h hu
    refine ⟨⟨u, service, resolvedBatchSize optsBatchSize envBatch,
      resolvedFlushMs optsFlushMs envFlush⟩, ?_, rfl⟩
    simp [buildTransport, h, hu]

/-- Witness for C7: with no uri anywhere construction errors; with a
LOG_MONGODB_URI in the environment it succeeds using that uri. -/
theorem buildTransport_uri_spec_witness :
    buildTransport none none none none none none none "svc"
        = Except.error uriErrorMsg ∧
    ∃ cfg, buildTransport none none none (some "mongodb://logs") none none none "svc"
        = Except.ok cfg ∧ cfg.uri = "mongodb://logs" := by
  refine ⟨(buildTransport_uri_spec none none none none none none none "svc").1
      (Or.inl rfl),
    (buildTransport_uri_spec none none none (some "mongodb://logs") none none none
      "svc").2 "mongodb://logs" (by decide) (by decide)⟩

/-- Every hit in LEVEL_MAP is one of the six severity names. -/
theorem LEVEL_MAP_mem (s n : String) (h : LEVEL_MAP s = some n) : n ∈ sixLevels := by
  unfold LEVEL_MAP at h
  split_ifs at h <;> simp_all [sixLevels]

/-- A key contributed by an optional field is that field's key. -/
theorem optKey_mem {α : Type} (k x : String) (v : Option α) (h : x ∈ optKey k v) :
    x = k := by
  cases v <;> simp [optKey] at h
  exact h

/-- Every key of a mapped document is a schema key or one of the three
constant extras. -/
theorem docKeys_subset (d : Doc) (k : String) (hk : k ∈ docKeys d) :
    k ∈ schemaKeys ++ extraKeys := by
  simp only [docKeys, List.mem_append] at hk
  rcases hk with ((((((hk | hk) | hk) | hk) | hk) | hk) | hk)
  · simp at hk
    rcases hk with rfl | rfl | rfl | rfl | rfl | rfl | rfl <;> decide
  all_goals (have h2 := optKey_mem _ _ _ hk; subst h2; decide)

/-- C8 as amended: every mapped document has a level drawn from the six
severity names, always carries level, message, service and timestamp,
and its property set is contained in the documented schema keys
extended by the three constant fields source, storage and storageTags
that the source always attaches. -/
theorem pinoToDoc_schema (o : RawObj) (svc : String) (clock : Int) :
    (pinoToDoc o svc clock).level ∈ sixLevels ∧
    "level" ∈ docKeys (pinoToDoc o svc clock) ∧
    "message" ∈ docKeys (pinoToDoc o svc clock) ∧
    "service" ∈ docKeys (pinoToDoc o svc clock) ∧
    "timestamp" ∈ docKeys (pinoToDoc o svc clock) ∧
    ∀ k ∈ docKeys (pinoToDoc o svc clock), k ∈ schemaKeys ++ extraKeys := by
  refine ⟨?_, by simp [docKeys], by simp [docKeys], by simp [docKeys],
    by simp [docKeys], fun k hk => docKeys_subset _ k hk⟩
  simp only [pinoToDoc]
  rcases hl : List.lookup "level" o with _ | v
  · simp [sixLevels]
  · rcases hm : LEVEL_MAP (jsString v) with _ | n
    · simp [hm, sixLevels]
    · simpa [hm] using LEVEL_MAP_mem _ _ hm

/-- C8 counterexample: the claim as stated is false — a mapped document
carries the property `source`, which is not a key of the documented
storage schema, so the document does not conform to that schema. -/
theorem pinoToDoc_schema_counterexample :
    "source" ∈ docKeys (pinoToDoc [("level", JVal.num 30), ("msg", JVal.str "hi")] "svc" 0) ∧
    "source" ∉ schemaKeys := by
  exact ⟨by decide, by decide⟩

/-- Witness for C8 at a concrete record. -/
theorem pinoToDoc_schema_witness :
    (pinoToDoc [("level", JVal.num 40)] "svc" 0).level ∈ sixLevels ∧
    "level" ∈ schemaKeys ++ extraKeys := by
  exact ⟨(pinoToDoc_schema [("level", JVal.num 40)] "svc" 0).1,
    (pinoToDoc_schema [("level", JVal.num 40)] "svc" 0).2.2.2.2.2 "level" (by decide)⟩

/-- C9 as amended: the record mapper is deterministic in its explicit
inputs whenever the record carries a non-null `time` field; only for
records without a usable `time` does the produced document depend on
the ambient clock (`new Date()`). -/
theorem pinoToDoc_pure (o : RawObj) (svc : String) (t1 t2 : Int)
    (h : isNullish (List.lookup "time" o) = false) :
    pinoToDoc o svc t1 = pinoToDoc o svc t2 := by
  simp only [pinoToDoc]
  rcases hl : List.lookup "time" o with _ | v
  · simp [hl, isNullish] at h
  · rw [hl] at h
    cases v
    case null => simp [isNullish] at h
    all_goals rfl

/-- C9 counterexample: on a record with no `time` field, two calls of
the mapper at different ambient clock instants produce different
documents — the mapper reads the current time, so it is not a pure
function of record and service name. -/
theorem pinoToDoc_pure_counterexample :
    pinoToDoc [("msg", JVal.str "hi")] "svc" 0
      ≠ pinoToDoc [("msg", JVal.str "hi")] "svc" 1 := by
  intro h
  have h2 := congrArg Doc.timestamp h
  have e1 : (pinoToDoc [("msg", JVal.str "hi")] "svc" 0).timestamp = DateV.now 0 := rfl
  have e2 : (pinoToDoc [("msg", JVal.str "hi")] "svc" 1).timestamp = DateV.now 1 := rfl
  rw [e1, e2] at h2
  injection h2 with h3
  exact absurd h3 (by norm_num)

/-- Witness for C9 at a concrete record carrying a time field. -/
theorem pinoToDoc_pure_witness :
    pinoToDoc [("time", JVal.num 5), ("msg", JVal.str "hi")] "svc" 0
      = pinoToDoc [("time", JVal.num 5), ("msg", JVal.str "hi")] "svc" 1 :=
  pinoToDoc_pure _ "svc" 0 1 (by decide)

/-- A write hands every record it buffers (and nothing else) to the
transport: the records owned afterwards (in-flight plus buffered) are
the records owned before plus exactly the documents of the parseable
lines, in order. -/
theorem records_conserved (parse : String → Option RawObj) (cfg : TransportConfig)
    (clock : Int) (lines : List String) (s : TState) :
    (writeChunkLines parse cfg clock lines s).pending.flatten
        ++ (writeChunkLines parse cfg clock lines s).buffer
      = s.pending.flatten ++ s.buffer
          ++ lines.filterMap (fun l => (parse l).map (fun o => pinoToDoc o cfg.service clock)) := by
  simp only [writeChunkLines, flush, scheduleFlush]
  split_ifs <;> simp

/-- C6 as amended: a line that fails to parse is discarded with no
error reaching the write caller and no internal record of the drop —
processing a chunk with the malformed line is indistinguishable, in
every component of the state, from processing the chunk without it —
while every parseable line of the same chunk is still handed to the
transport (buffered or already in flight). -/
theorem malformed_line_spec (parse : String → Option RawObj) (cfg : TransportConfig)
    (clock : Int) (pre post : List String) (bad : String) (hbad : parse bad = none)
    (s : TState) :
    writeChunkLines parse cfg clock (pre ++ bad :: post) s
      = writeChunkLines parse cfg clock (pre ++ post) s ∧
    (∀ l ∈ pre ++ post, ∀ o, parse l = some o →
      pinoToDoc o cfg.service clock ∈
        (writeChunkLines parse cfg clock (pre ++ bad :: post) s).pending.flatten
          ++ (writeChunkLines parse cfg clock (pre ++ bad :: post) s).buffer) := by
  have hf : (fun l => (parse l).map (fun o => pinoToDoc o cfg.service clock)) bad = none := by
    simp [hbad]
  have hdocs :
      (pre ++ bad :: post).filterMap
          (fun l => (parse l).map (fun o => pinoToDoc o cfg.service clock))
        = (pre ++ post).filterMap
            (fun l => (parse l).map (fun o => pinoToDoc o cfg.service clock)) := by
    simp [List.filterMap_append, List.filterMap_cons, hf]
  have heq : writeChunkLines parse cfg clock (pre ++ bad :: post) s
      = writeChunkLines parse cfg clock (pre ++ post) s := by
    simp only [writeChunkLines, hdocs]
  refine ⟨heq, ?_⟩
  intro l hl o ho
  rw [heq, records_conserved]
  exact List.mem_append.mpr (Or.inr (List.mem_filterMap.mpr ⟨l, hl, by simp [ho]⟩))

/-- A concrete model of JSON.parse for the counterexamples: the line
"good" parses to a one-field record, everything else throws. -/
def parse0 : String → Option RawObj := fun l =>
  if l = "good" then some [("msg", JVal.str "hi")] else none

/-- C6 counterexample: the claim as stated is false — the drop is not
counted anywhere. Processing the chunk with lines good,bad leaves the
transport in exactly the same state (buffer, timer, in-flight writes,
stderr — every observable) as processing the chunk with the good line
alone, and the good line is still buffered. -/
theorem malformed_line_counterexample :
    writeChunkLines parse0 cfg0 0 ["good", "bad"] initState
      = writeChunkLines parse0 cfg0 0 ["good"] initState ∧
    (writeChunkLines parse0 cfg0 0 ["good", "bad"] initState).buffer
      = [pinoToDoc [("msg", JVal.str "hi")] "svc" 0] :=
  ⟨rfl, rfl⟩

/-- Witness for C6 at a concrete chunk: dropping the malformed line
leaves the state unchanged and the good document is still owned by the
transport. -/
theorem malformed_line_spec_witness :
    writeChunkLines parse0 cfg0 0 (["good"] ++ "bad" :: []) initState
      = writeChunkLines parse0 cfg0 0 (["good"] ++ []) initState ∧
    pinoToDoc [("msg", JVal.str "hi")] "svc" 0 ∈
      (writeChunkLines parse0 cfg0 0 (["good"] ++ "bad" :: []) initState).pending.flatten
        ++ (writeChunkLines parse0 cfg0 0 (["good"] ++ "bad" :: []) initState).buffer :=
  ⟨(malformed_line_spec parse0 cfg0 0 ["good"] [] "bad" rfl initState).1,
   (malformed_line_spec parse0 cfg0 0 ["good"] [] "bad" rfl initState).2
     "good" (by simp) [("msg", JVal.str "hi")] rfl⟩

/-- C2 as amended: when an in-flight batch write fails, the batch is
dropped from the in-flight set and is neither retried nor re-buffered
(the buffer is untouched, so none of its records re-appear there), and
the catch handler appends exactly two diagnostic lines to the process
error stream, the first of which embeds the error message; the record
count of the failed batch appears in neither line, and no error escapes
to the producing process (the handler is a total state transformation). -/
theorem failed_write_spec (s : TState) (i : Nat) (e : JsError)
    (h : i < s.pending.length) :
    (settleFail i e s).buffer = s.buffer ∧
    (settleFail i e s).pending = s.pending.eraseIdx i ∧
    (settleFail i e s).pending.length + 1 = s.pending.length ∧
    (∀ d, d ∉ s.buffer → d ∉ (settleFail i e s).buffer) ∧
    (settleFail i e s).stderrOut = s.stderrOut ++ [errLine1 e, errLine2 e] ∧
    (∃ p q, errLine1 e = p ++ e.message ++ q) := by
  refine ⟨rfl, rfl, ?_, fun d hd => hd, rfl, ?_⟩
  · have := List.length_eraseIdx_add_one h
    simpa [settleFail] using this
  · exact ⟨"[logger-client-node] MongoDB insertMany failed: ", "\n", rfl⟩

/-- The error delivered to the catch handler in the counterexamples. -/
def err0 : JsError := { message := "boom", stack := none }

/-- A transport with one single-record batch in flight. -/
def sFail1 : TState := { initState with pending := [[doc0]] }

/-- A transport with one five-record batch in flight. -/
def sFail5 : TState := { initState with pending := [[doc0, doc0, doc0, doc0, doc0]] }

/-- C2 counterexample: the claim as stated is false — the handler
emits two stderr lines, not one, and the emitted text is identical for
a failed batch of one record and a failed batch of five records with
the same error, so it cannot contain the record count of the failed
batch. -/
theorem failed_write_counterexample :
    (settleFail 0 err0 sFail1).stderrOut = (settleFail 0 err0 sFail5).stderrOut ∧
    (settleFail 0 err0 sFail1).stderrOut.length = 2 ∧
    sFail1.pending.flatten.length = 1 ∧
    sFail5.pending.flatten.length = 5 :=
  ⟨rfl, rfl, rfl, rfl⟩

/-- Witness for C2 at the concrete one-batch state. -/
theorem failed_write_spec_witness :
    (settleFail 0 err0 sFail1).buffer = sFail1.buffer ∧
    (settleFail 0 err0 sFail1).stderrOut
      = sFail1.stderrOut ++ [errLine1 err0, errLine2 err0] :=
  ⟨(failed_write_spec sFail1 0 err0 (by decide)).1,
   (failed_write_spec sFail1 0 err0 (by decide)).2.2.2.2.1⟩

/-- flush never touches the timer fields. -/
theorem timerInv_flush (s : TState) (h : TimerInv s) : TimerInv (flush s) := by
  unfold flush
  split_ifs <;> exact h

/-- scheduleFlush keeps the timer invariant: it creates a timer only
when none is live. -/
theorem timerInv_scheduleFlush (s : TState) (h : TimerInv s) :
    TimerInv (scheduleFlush s) := by
  obtain ⟨buf, ft, act, pend, serr, cls, fin⟩ := s
  unfold scheduleFlush
  unfold TimerInv at h
  dsimp only at h
  split_ifs with ht
  · exact h
  · have h0 : act = 0 := h.2 (by simpa using ht)
    refine ⟨?_, ?_⟩
    · dsimp only
      omega
    · intro hx
      simp at hx

/-- The write handler keeps the timer invariant. -/
theorem timerInv_writeChunkLines (parse : String → Option RawObj)
    (cfg : TransportConfig) (clock : Int) (lines : List String) (s : TState)
    (h : TimerInv s) : TimerInv (writeChunkLines parse cfg clock lines s) := by
  obtain ⟨buf, ft, act, pend, serr, cls, fin⟩ := s
  unfold writeChunkLines
  dsimp only
  have hmid : TimerInv (TState.mk (buf ++
      lines.filterMap (fun l => (parse l).map (fun o => pinoToDoc o cfg.service clock)))
      ft act pend serr cls fin) := h
  split_ifs with hA hB
  · have := timerInv_flush _ hmid
    unfold TimerInv at this ⊢
    refine ⟨?_, fun _ => ?_⟩ <;> dsimp only <;> omega
  · exact timerInv_flush _ hmid
  · exact timerInv_scheduleFlush _ hmid

/-- The timer callback keeps the timer invariant. -/
theorem timerInv_timerFire (s : TState) (h : TimerInv s) : TimerInv (timerFire s) := by
  obtain ⟨buf, ft, act, pend, serr, cls, fin⟩ := s
  unfold timerFire
  apply timerInv_flush
  unfold TimerInv at h ⊢
  dsimp only at h ⊢
  exact ⟨by omega, fun _ => by omega⟩

/-- The final handler keeps the timer invariant. -/
theorem timerInv_finalStart (s : TState) (h : TimerInv s) : TimerInv (finalStart s) := by
  obtain ⟨buf, ft, act, pend, serr, cls, fin⟩ := s
  unfold finalStart
  dsimp only
  split_ifs with ht
  · have h1 : TimerInv (TState.mk buf ft (act - 1) pend serr cls fin) := by
      unfold TimerInv at h ⊢
      dsimp only at h ⊢
      subst ht
      exact ⟨by omega, fun hx => by simp at hx⟩
    have h2 := timerInv_flush _ h1
    unfold TimerInv at h2 ⊢
    exact h2
  · have h2 := timerInv_flush _ h
    unfold TimerInv at h2 ⊢
    exact h2

/-- Every asynchronous event of the transport keeps the timer
invariant: at most one timer is ever live, and none once the
flushTimer variable is null. -/
theorem timerInv_step (parse : String → Option RawObj) (cfg : TransportConfig)
    (s s' : TState) (h : TimerInv s) (hs : Step parse cfg s s') : TimerInv s' := by
  cases hs with
  | writeStep clock lines t => exact timerInv_writeChunkLines parse cfg clock lines s h
  | fireStep t ht => exact timerInv_timerFire s h
  | settleOkStep i t hi => exact h
  | settleFailStep i e t hi => exact h
  | finalStep t => exact timerInv_finalStart s h
  | closeStep t hc => exact h

/-- C4: after the pushes of a write call, if the buffer has reached
batchSize the handler immediately flushes (the whole buffer becomes a
new in-flight batch, the buffer empties) and cancels any pending timer
(the flushTimer is nulled and a live timer is destroyed); otherwise a
timer is pending afterwards, no write is initiated, and if a timer was
already pending none is added (scheduleFlush is a no-op then), so —
with the invariant preserved by every event — at most one timer is
active at any moment. -/
theorem maybeFlush_spec (parse : String → Option RawObj) (cfg : TransportConfig)
    (clock : Int) (lines : List String) (s : TState) :
    (∀ t : TState, t.flushTimer = true → scheduleFlush t = t) ∧
    (∀ t t' : TState, TimerInv t → Step parse cfg t t' → TimerInv t') ∧
    (1 ≤ cfg.batchSize →
      cfg.batchSize ≤ ((s.buffer ++ lines.filterMap
          (fun l => (parse l).map (fun o => pinoToDoc o cfg.service clock))).length : Int) →
      (writeChunkLines parse cfg clock lines s).pending
          = s.pending ++ [s.buffer ++ lines.filterMap
              (fun l => (parse l).map (fun o => pinoToDoc o cfg.service clock))] ∧
      (writeChunkLines parse cfg clock lines s).buffer = [] ∧
      (writeChunkLines parse cfg clock lines s).flushTimer = false ∧
      (s.flushTimer = true →
        (writeChunkLines parse cfg clock lines s).activeTimers = s.activeTimers - 1)) ∧
    (¬ cfg.batchSize ≤ ((s.buffer ++ lines.filterMap
          (fun l => (parse l).map (fun o => pinoToDoc o cfg.service clock))).length : Int) →
      (writeChunkLines parse cfg clock lines s).flushTimer = true ∧
      (writeChunkLines parse cfg clock lines s).pending = s.pending ∧
      (writeChunkLines parse cfg clock lines s).buffer
        = s.buffer ++ lines.filterMap
            (fun l => (parse l).map (fun o => pinoToDoc o cfg.service clock)) ∧
      (s.flushTimer = true →
        (writeChunkLines parse cfg clock lines s).activeTimers = s.activeTimers)) := by
  obtain ⟨buf, ft, act, pend, serr, cls, fin⟩ := s
  refine ⟨?_, timerInv_step parse cfg, ?_, ?_⟩
  · intro t ht
    simp [scheduleFlush, ht]
  · intro h1 h2
    have hne : ¬ ((buf ++ lines.filterMap
        (fun l => (parse l).map (fun o => pinoToDoc o cfg.service clock))).length = 0) := by
      dsimp only at h2
      omega
    unfold writeChunkLines flush
    dsimp only
    rw [if_pos h2, if_neg hne]
    dsimp only
    cases ft <;> simp
  · intro h2
    unfold writeChunkLines scheduleFlush
    dsimp only
    rw [if_neg h2]
    cases ft <;> simp

/-- A configuration whose size threshold is one record. -/
def cfg1 : TransportConfig :=
  { uri := "mongodb://logs", service := "svc", batchSize := 1, flushMs := 2000 }

/-- Witness for C4 at concrete states: a pending timer makes
scheduleFlush a no-op, a size-triggered write leaves no timer pending,
and a below-threshold write leaves one, with the invariant holding. -/
theorem maybeFlush_spec_witness :
    scheduleFlush { initState with flushTimer := true, activeTimers := 1 }
      = { initState with flushTimer := true, activeTimers := 1 } ∧
    (writeChunkLines parse0 cfg1 0 ["good"] initState).flushTimer = false ∧
    (writeChunkLines parse0 cfg0 0 ["good"] initState).flushTimer = true ∧
    TimerInv (writeChunkLines parse0 cfg0 0 ["good"] initState) :=
  ⟨(maybeFlush_spec parse0 cfg1 0 ["good"] initState).1 _ rfl,
   ((maybeFlush_spec parse0 cfg1 0 ["good"] initState).2.2.1 (by decide) (by decide)).2.2.1,
   ((maybeFlush_spec parse0 cfg0 0 ["good"] initState).2.2.2 (by decide)).1,
   (maybeFlush_spec parse0 cfg0 0 ["good"] initState).2.1 initState _
     (by exact ⟨by decide, fun _ => by decide⟩)
     (Step.writeStep 0 ["good"] initState)⟩

/-- C1: evidence of the missing wait on the drain path. From a state
with one buffered record and nothing else outstanding, the final
handler detaches the record into an in-flight insertMany and initiates
client.close(); the close promise may settle — running the drain
callback — while that write is still unsettled, because the source
retains no reference to the insertMany promises and sequences the
callback only after close. Both transitions are steps of the model, and
in the resulting state the drain callback has run with the final batch
still in flight. -/
theorem drain_no_wait :
    Step parse0 cfg0 { initState with buffer := [doc0] }
      (finalStart { initState with buffer := [doc0] }) ∧
    Step parse0 cfg0 (finalStart { initState with buffer := [doc0] })
      (closeSettle (finalStart { initState with buffer := [doc0] })) ∧
    (closeSettle (finalStart { initState with buffer := [doc0] })).finalCbDone = true ∧
    (closeSettle (finalStart { initState with buffer := [doc0] })).pending = [[doc0]] :=
  ⟨Step.finalStep _, Step.closeStep _ rfl, rfl, rfl⟩
